import Mathlib

/-
Verification of the dashp docset-merging pipeline (src/dashp.py) against its
specification. The Python program is shallowly embedded: its string and
pathlib operations, the sqlite query outcomes, and the control flow of
merge_docsets, launch_fzf and main are modelled as executable Lean functions.
-/

set_option autoImplicit false

namespace Dashp

/-! ## Python string and pathlib primitives -/

/-- Model of Python str.endswith: the last characters of s are exactly suf. -/
def pyEndsWith (s suf : String) : Bool :=
  s.data.drop (s.data.length - suf.data.length) == suf.data

/-- Model of Python str.removesuffix: removes one copy of the suffix when present. -/
def pyRemoveSuffix (s suf : String) : String :=
  if pyEndsWith s suf then String.mk (s.data.take (s.data.length - suf.data.length)) else s

/-- The whitespace characters Python str.strip removes, over the ASCII range. -/
def isPySpace (c : Char) : Bool :=
  c = ' ' || c = '\t' || c = '\n' || c = '\r' || c = '\x0b' || c = '\x0c'

/-- Model of Python str.strip with no argument. -/
def pyStrip (s : String) : String :=
  String.mk (((s.data.dropWhile isPySpace).reverse.dropWhile isPySpace).reverse)

/-- Model of a Python pathlib PurePosixPath: an absolute flag plus the list of
components. Parsing collapses repeated separators, drops trailing separators
and drops single-dot components, as pathlib does. -/
structure PyPath where
  absolute : Bool
  parts : List String
deriving DecidableEq, Repr

/-- Split a character list at every separator, as Python str.split of one
separator does: n separators yield n plus one pieces, empty pieces kept. -/
def splitSlash : List Char → List (List Char)
  | [] => [[]]
  | c :: cs =>
    if c = '/' then [] :: splitSlash cs
    else
      match splitSlash cs with
      | h :: t => (c :: h) :: t
      | [] => [[c]]

/-- Whether the first character is the separator. -/
def headIsSlash : List Char → Bool
  | c :: _ => c = '/'
  | [] => false

/-- Model of the Path(string) constructor. -/
def parsePath (s : String) : PyPath :=
  { absolute := headIsSlash s.data,
    parts := ((splitSlash s.data).map String.mk).filter (fun c => c != "" && c != ".") }

/-- Interleave the separator between components. -/
def joinSlash : List String → String
  | [] => ""
  | [p] => p
  | p :: ps => p ++ "/" ++ joinSlash ps

/-- Model of str(path) for the paths this program builds. -/
def pyStr (p : PyPath) : String :=
  match p.parts with
  | [] => if p.absolute then "/" else "."
  | _ => (if p.absolute then "/" else "") ++ joinSlash p.parts

/-- Model of the / operator on Path with a relative string on the right. -/
def pyJoin (p : PyPath) (rel : String) : PyPath :=
  let q := parsePath rel
  if q.absolute then q else { absolute := p.absolute, parts := p.parts ++ q.parts }

/-- Model of Path.name: the final component, or the empty string. -/
def pyName (p : PyPath) : String := p.parts.getLastD ""

/-- Index of the last dot in a list of characters, if any. -/
def lastDotIdx : List Char → Option Nat
  | [] => none
  | c :: cs =>
    match lastDotIdx cs with
    | some n => some (n + 1)
    | none => if c = '.' then some 0 else none

/-- Stem of a file name, per CPython pathlib: drop the last dot-suffix when the
last dot sits strictly inside the name (not first, not last character). -/
def stemOfName (n : String) : String :=
  match lastDotIdx n.data with
  | some i => if 0 < i && i + 1 < n.data.length then String.mk (n.data.take i) else n
  | none => n

/-- Model of Path.stem. -/
def pyStem (p : PyPath) : String := stemOfName (pyName p)

/-! ## The marker-stripping regex

src/dashp.py line 58 runs re.sub on the raw path with the pattern that
matches a literal open angle bracket, d, a, s, h, underscore, e, n, t, r, y,
underscore, then a greedy dot-star, then a close angle bracket. Python regex
dot-star is greedy and does not cross a newline, so one match extends from a
marker start to the LAST close angle bracket before the next newline. re.sub
replaces every non-overlapping leftmost match with the empty string. -/

/-- The literal part of the marker pattern. -/
def dashMarker : List Char := "<dash_entry_".data

/-- Index of the last close angle bracket before the first newline, if any:
the extent a greedy dot-star followed by a close bracket consumes. -/
def lastGtIdx : List Char → Option Nat
  | [] => none
  | c :: cs =>
    if c = '\n' then none
    else
      match lastGtIdx cs with
      | some n => some (n + 1)
      | none => if c = '>' then some 0 else none

/-- One left-to-right re.sub pass. The fuel argument makes the recursion
structural; it is called with the length of the list, which the scan never
exceeds since every step consumes at least one character. -/
def stripLoop : Nat → List Char → List Char
  | 0, cs => cs
  | _ + 1, [] => []
  | fuel + 1, c :: cs =>
    if (c :: cs).take 12 = dashMarker then
      match lastGtIdx (cs.drop 11) with
      | some i => stripLoop fuel ((cs.drop 11).drop (i + 1))
      | none => c :: stripLoop fuel cs
    else c :: stripLoop fuel cs

/-- Model of the substitution on line 58 of src/dashp.py. -/
def stripDashEntry (s : String) : String := String.mk (stripLoop s.data.length s.data)

/-! ## The sqlite layer

A query against a docset store either yields its rows or raises an exception.
Python sqlite3 classifies exceptions: "no such table" and "no such column"
raise sqlite3.OperationalError, but so do "database is locked" (lock
contention) and "unable to open database file"; "database disk image is
malformed" (corruption) raises sqlite3.DatabaseError, which is not an
OperationalError. The except clause on line 38 of src/dashp.py catches
exactly sqlite3.OperationalError. -/

/-- The failure kinds a store query can raise, named after the sqlite
diagnostics they model. -/
inductive SqlErr where
  | noSuchTable
  | noSuchColumn
  | databaseLocked
  | unableToOpen
  | malformedImage
deriving DecidableEq, Repr

/-- Which failure kinds are instances of sqlite3.OperationalError in Python. -/
def isOperationalError : SqlErr → Bool
  | .noSuchTable => true
  | .noSuchColumn => true
  | .databaseLocked => true
  | .unableToOpen => true
  | .malformedImage => false

/-- Which failure kinds are of the missing-table / missing-column class. -/
def isMissingRelation : SqlErr → Bool
  | .noSuchTable => true
  | .noSuchColumn => true
  | _ => false

/-- One extracted row: name, type, raw path. -/
abbrev Row := String × String × String

deriving instance DecidableEq for Except

/-- The observable behaviour of one docset's store: the outcome of the modern
flat-table query and the outcome of the legacy join query, were each run. -/
structure DocsetStore where
  modern : Except SqlErr (List Row)
  legacy : Except SqlErr (List Row)
deriving DecidableEq, Repr

/-- The try/except block of lines 33 to 52 of src/dashp.py: run the modern
query; when it raises an OperationalError run the legacy query instead; any
other exception, and any exception of the legacy query, propagates. -/
def extractRows (s : DocsetStore) : Except SqlErr (List Row) :=
  match s.modern with
  | .ok rows => .ok rows
  | .error e => if isOperationalError e then s.legacy else .error e

/-- Whether the control flow of extractRows reaches the legacy query. -/
def legacyAttempted (s : DocsetStore) : Bool :=
  match s.modern with
  | .ok _ => false
  | .error e => isOperationalError e

/-! ## The legacy schema and its join query -/

/-- A row of the ztoken table. -/
structure ZToken where
  z_pk : Int
  ztokenname : String
  zmetainformation : Int
  ztokentype : Int
deriving DecidableEq, Repr

/-- A row of the ztokenmetainformation table. -/
structure ZTokenMetaInfo where
  z_pk : Int
  zfile : Int
deriving DecidableEq, Repr

/-- A row of the zfilepath table; the anchor column is nullable. -/
structure ZFilePath where
  z_pk : Int
  zpath : String
  zanchor : Option String
deriving DecidableEq, Repr

/-- A row of the ztokentype table. -/
structure ZTokenType where
  z_pk : Int
  ztypename : String
deriving DecidableEq, Repr

/-- The four tables of a legacy-schema store. -/
structure LegacyStore where
  ztoken : List ZToken
  ztokenmetainformation : List ZTokenMetaInfo
  zfilepath : List ZFilePath
  ztokentype : List ZTokenType
deriving DecidableEq, Repr

/-- SQL nullif on a nullable string. -/
def sqlNullif (a : Option String) (b : String) : Option String :=
  match a with
  | none => none
  | some x => if x = b then none else some x

/-- The url column of the legacy query, for a non-null zpath: SQL
zpath concatenated with ifnull of (hash-sign concatenated with
nullif(zanchor, empty)) else empty. Concatenating the hash sign with NULL is
NULL, so an absent or empty anchor contributes nothing. -/
def legacyUrl (zpath : String) (zanchor : Option String) : String :=
  zpath ++ (((sqlNullif zanchor "").map (fun a => "#" ++ a)).getD "")

/-- The inner join of the legacy query (lines 40 to 52 of src/dashp.py) as a
nested-loop join over the four tables. -/
def legacyRows (tokens : List ZToken) (metas : List ZTokenMetaInfo)
    (files : List ZFilePath) (types : List ZTokenType) : List Row :=
  tokens.flatMap fun t =>
    (metas.filter (fun m => m.z_pk == t.zmetainformation)).flatMap fun m =>
      (files.filter (fun f => f.z_pk == m.zfile)).flatMap fun f =>
        (types.filter (fun y => y.z_pk == t.ztokentype)).map fun y =>
          (t.ztokenname, y.ztypename, legacyUrl f.zpath f.zanchor)

/-- The legacy query applied to a legacy-schema store. -/
def legacyQuery (s : LegacyStore) : List Row :=
  legacyRows s.ztoken s.ztokenmetainformation s.zfilepath s.ztokentype

/-! ## Entries and the merge -/

/-- One row of the unified in-memory searchIndex table. -/
structure Entry where
  name : String
  type : String
  docset : String
  path : String
deriving DecidableEq, Repr

/-- The fixed documents-root location below a docset. -/
def docsRel : String := "Contents/Resources/Documents"

/-- Lines 56 to 66 of src/dashp.py, for one fetched row: strip the marker,
compose the path by plain string concatenation below the documents root, tag
with the docset stem. -/
def entryOfRow (docset : PyPath) (r : Row) : Entry :=
  { name := r.1,
    type := r.2.1,
    docset := pyStem docset,
    path := pyStr (pyJoin docset docsRel) ++ "/" ++ stripDashEntry r.2.2 }

/-- One docset as the merge sees it: its path and, when the store file
exists at Contents/Resources/docSet.dsidx, the behaviour of its store. -/
structure Docset where
  path : PyPath
  store : Option DocsetStore
deriving Repr

/-- The warning logged on line 27 of src/dashp.py. -/
def missingDbWarning (d : Docset) : String :=
  "Database not found for docset: " ++ pyStr d.path

/-- The loop of merge_docsets (lines 24 to 66 of src/dashp.py). The
accumulator holds the searchIndex rows inserted so far and the warnings
logged so far. A docset without a store file is skipped with a warning; a
store failure that extractRows propagates escapes the loop uncaught, so the
whole merge aborts with that error and no index is returned. -/
def mergeGo : List Docset → List Entry → List String → Except SqlErr (List Entry × List String)
  | [], acc, logs => .ok (acc, logs)
  | d :: rest, acc, logs =>
    match d.store with
    | none => mergeGo rest acc (logs ++ [missingDbWarning d])
    | some s =>
      match extractRows s with
      | .error e => .error e
      | .ok rows => mergeGo rest (acc ++ rows.map (entryOfRow d.path)) logs

/-- merge_docsets itself: the loop started on an empty index. -/
def mergeDocsets (ds : List Docset) : Except SqlErr (List Entry × List String) :=
  mergeGo ds [] []

/-- Forget the logs of a merge outcome, keeping the index rows. -/
def entriesOf (r : Except SqlErr (List Entry × List String)) : Except SqlErr (List Entry) :=
  r.map Prod.fst

/-! ## The selector and main -/

/-- The environment-determined outcome of invoking fzf: the binary may be
missing (FileNotFoundError) or the process runs and terminates with a return
code and captured standard output. -/
inductive FzfOutcome where
  | notFound
  | ran (returncode : Int) (stdout : String)
deriving DecidableEq, Repr

/-- What launch_fzf does with that outcome: either it returns a value to its
caller or it calls sys.exit with a code. -/
inductive FzfResult where
  | ret (r : Option String)
  | exited (code : Int)
deriving DecidableEq, Repr

/-- Lines 82 to 118 of src/dashp.py: a missing binary logs and returns None;
return code 130 (user abort) returns None; any other nonzero return code
calls sys.exit with that very code; on success the stripped standard output
is returned when nonempty, else None. -/
def launchFzf : FzfOutcome → FzfResult
  | .notFound => .ret none
  | .ran rc out =>
    if rc = 130 then .ret none
    else if rc ≠ 0 then .exited rc
    else if pyStrip out ≠ "" then .ret (some (pyStrip out)) else .ret none

/-- The argument filter on lines 126 to 128 of src/dashp.py: keep the
arguments that end in the docset suffix after removing one trailing
separator. -/
def filterDocsets (args : List String) : List String :=
  args.filter (fun a => pyEndsWith (pyRemoveSuffix a "/") ".docset")

/-- Build the Docset values main hands to merge_docsets: each surviving
argument is parsed by the Path constructor, and the filesystem (modelled as
a function from the parsed path) decides whether its store exists and how it
behaves. -/
def mkDocsets (args : List String) (fs : PyPath → Option DocsetStore) : List Docset :=
  (filterDocsets args).map (fun a => { path := parsePath a, store := fs (parsePath a) })

/-- The process exit status of main (lines 121 to 139 of src/dashp.py) given
the argument list (sys.argv without the program name), the filesystem, and
the fzf outcome. An exception escaping merge_docsets is uncaught, which
terminates the interpreter with status 1. -/
def mainExit (args : List String) (fs : PyPath → Option DocsetStore) (fzf : FzfOutcome) : Int :=
  if args.isEmpty then 1
  else if (filterDocsets args).isEmpty then 1
  else
    match mergeDocsets (mkDocsets args fs) with
    | .error _ => 1
    | .ok _ =>
      match launchFzf fzf with
      | .exited c => c
      | .ret (some _) => 0
      | .ret none => 1

/-- Whether an Except is a success. -/
def exceptIsOk {ε α : Type} : Except ε α → Bool
  | .ok _ => true
  | .error _ => false

/-- Whether the run gets as far as invoking the selector: some argument
survives the filter and the merge raises nothing. -/
def pipelineOk (args : List String) (fs : PyPath → Option DocsetStore) : Bool :=
  !args.isEmpty && !(filterDocsets args).isEmpty &&
    exceptIsOk (mergeDocsets (mkDocsets args fs))

/-- Whether a path is resolved and printed: the pipeline reaches the
selector and launch_fzf returns a selection. -/
def pathPrinted (args : List String) (fs : PyPath → Option DocsetStore) (fzf : FzfOutcome) : Bool :=
  pipelineOk args fs &&
    (match launchFzf fzf with
     | .ret (some _) => true
     | _ => false)

/-- The selector's own exit code, when the run reaches the selector and the
selector process terminates with a code that is neither 0 nor 130. -/
def selectorFailCode (args : List String) (fs : PyPath → Option DocsetStore)
    (fzf : FzfOutcome) : Option Int :=
  if pipelineOk args fs then
    match fzf with
    | .ran rc _ => if rc ≠ 0 ∧ rc ≠ 130 then some rc else none
    | .notFound => none
  else none

/-! ## Concrete instances used by the theorems below -/

/-- The documents-root string of a docset, as the merge composes it. -/
def docRootStr (p : PyPath) : String := pyStr (pyJoin p docsRel)

/-- A store whose flat table holds one map/Function row. -/
def mapRowStore : DocsetStore :=
  { modern := .ok [("map", "Function", "map.html")], legacy := .ok [] }

/-- Docset A, modern schema, one map/Function row. -/
def docsetA : Docset := { path := parsePath "A.docset", store := some mapRowStore }

/-- Docset B, modern schema, one map/Function row. -/
def docsetB : Docset := { path := parsePath "B.docset", store := some mapRowStore }

/-- The entry the merge produces for docset A's row. -/
def entryA : Entry :=
  { name := "map", type := "Function", docset := "A",
    path := "A.docset/Contents/Resources/Documents/map.html" }

/-- The entry the merge produces for docset B's row. -/
def entryB : Entry :=
  { name := "map", type := "Function", docset := "B",
    path := "B.docset/Contents/Resources/Documents/map.html" }

/-- A store where the modern query raises a missing-table error and the
legacy query then raises a lock error. -/
def badStore : DocsetStore :=
  { modern := .error .noSuchTable, legacy := .error .databaseLocked }

/-- A docset whose store fails both queries. -/
def badDocset : Docset := { path := parsePath "Bad.docset", store := some badStore }

/-- A healthy modern-schema docset. -/
def goodDocset : Docset :=
  { path := parsePath "Good.docset",
    store := some { modern := .ok [("map", "Function", "map.html")], legacy := .ok [] } }

/-- A store whose modern query raises the lock-contention error while its
legacy tables are readable. -/
def lockedStore : DocsetStore :=
  { modern := .error .databaseLocked, legacy := .ok [("n", "k", "p")] }

/-- A filesystem on which every docset has an empty healthy store. -/
def fsOk : PyPath → Option DocsetStore :=
  fun _ => some { modern := .ok [], legacy := .ok [] }

/-- A three-token legacy store: one anchored token, one token with a NULL
anchor, one token with an empty anchor. -/
def legacyDemo : LegacyStore :=
  { ztoken := [⟨1, "bar", 10, 20⟩, ⟨2, "baz", 11, 20⟩, ⟨3, "qux", 12, 20⟩],
    ztokenmetainformation := [⟨10, 100⟩, ⟨11, 101⟩, ⟨12, 102⟩],
    zfilepath := [⟨100, "b.html", some "anchor1"⟩, ⟨101, "c.html", none⟩,
                  ⟨102, "d.html", some ""⟩],
    ztokentype := [⟨20, "Class"⟩] }

/-- The metainformation row each demo token joins with. -/
def demoFm (t : ZToken) : ZTokenMetaInfo :=
  if t.zmetainformation == 10 then ⟨10, 100⟩
  else if t.zmetainformation == 11 then ⟨11, 101⟩ else ⟨12, 102⟩

/-- The filepath row each demo token joins with. -/
def demoFf (t : ZToken) : ZFilePath :=
  if t.zmetainformation == 10 then ⟨100, "b.html", some "anchor1"⟩
  else if t.zmetainformation == 11 then ⟨101, "c.html", none⟩ else ⟨102, "d.html", some ""⟩

/-- The tokentype row each demo token joins with. -/
def demoFy (_ : ZToken) : ZTokenType := ⟨20, "Class"⟩

end Dashp

/-! ## Claim C1 -/

/-- Claim C1 counterexample: stripping the raw path
given in the claim does NOT yield the string
with just the markers removed; the greedy dot-star spans both markers. -/
theorem strip_two_markers_not_middle :
    Dashp.stripDashEntry "<dash_entry_foo>middle<dash_entry_bar>" ≠ "middle" := by
  decide

/-- Claim C1 (amended): one substitution spans from a marker start to the last
close angle bracket on the line, so the raw path with two markers strips to
the empty string, while a path with a single marker (and no later close
bracket) has just that marker removed, interior text preserved. -/
theorem strip_greedy_spans_markers :
    Dashp.stripDashEntry "<dash_entry_foo>middle<dash_entry_bar>" = "" ∧
    Dashp.stripDashEntry "<dash_entry_foo>middle" = "middle" ∧
    Dashp.stripDashEntry "a<dash_entry_x>b" = "ab" := by
  decide

/-! ## Claim C2 -/

/-- Claim C2 counterexample: with a docset whose store fails both queries
first in the list, the merge of the whole list raises, so the healthy second
docset's entry reaches no unified index at all, although merging it alone
succeeds. -/
theorem merge_failure_drops_other_docsets :
    Dashp.mergeDocsets [Dashp.badDocset, Dashp.goodDocset] =
      Except.error Dashp.SqlErr.databaseLocked ∧
    Dashp.entriesOf (Dashp.mergeDocsets [Dashp.goodDocset]) =
      Except.ok [{ name := "map", type := "Function", docset := "Good",
                   path := "Good.docset/Contents/Resources/Documents/map.html" }] := by
  decide

/-- Claim C2 (amended): a docset whose store is present but fails extraction
makes the exception escape the merge loop: whatever was already merged and
whatever docsets remain, the whole merge evaluates to that error, so the
other docsets' entries are not merged and the batch does not continue. The
first part covers a modern failure caught as OperationalError followed by a
legacy failure; the second covers a modern failure outside
OperationalError. -/
theorem extract_failure_aborts_batch :
    (∀ (d : Dashp.Docset) (s : Dashp.DocsetStore) (e1 e2 : Dashp.SqlErr)
        (rest : List Dashp.Docset) (acc : List Dashp.Entry) (logs : List String),
       d.store = some s → s.modern = Except.error e1 →
       Dashp.isOperationalError e1 = true → s.legacy = Except.error e2 →
       Dashp.mergeGo (d :: rest) acc logs = Except.error e2) ∧
    (∀ (d : Dashp.Docset) (s : Dashp.DocsetStore) (e1 : Dashp.SqlErr)
        (rest : List Dashp.Docset) (acc : List Dashp.Entry) (logs : List String),
       d.store = some s → s.modern = Except.error e1 →
       Dashp.isOperationalError e1 = false →
       Dashp.mergeGo (d :: rest) acc logs = Except.error e1) := by
  constructor
  · intro d s e1 e2 rest acc logs hd hm hop hl
    simp [Dashp.mergeGo, Dashp.extractRows, hd, hm, hop, hl]
  · intro d s e1 rest acc logs hd hm hop
    simp [Dashp.mergeGo, Dashp.extractRows, hd, hm, hop]

/-- Witness for the amended claim C2 at a concrete docset list. -/
theorem extract_failure_aborts_batch_witness :
    Dashp.mergeGo [Dashp.badDocset, Dashp.goodDocset] [] [] =
      Except.error Dashp.SqlErr.databaseLocked :=
  extract_failure_aborts_batch.1 Dashp.badDocset Dashp.badStore
    Dashp.SqlErr.noSuchTable Dashp.SqlErr.databaseLocked [Dashp.goodDocset] [] []
    rfl rfl rfl rfl

/-! ## Claim C3 -/

/-- Claim C3 counterexample: a modern-query failure from lock contention is
an OperationalError but not of the missing-table or missing-column class;
the code still falls back to the legacy query and nothing propagates. -/
theorem fallback_on_locked_error :
    Dashp.legacyAttempted Dashp.lockedStore = true ∧
    Dashp.isMissingRelation Dashp.SqlErr.databaseLocked = false ∧
    Dashp.extractRows Dashp.lockedStore = Except.ok [("n", "k", "p")] := by
  decide

/-- Claim C3 (amended): the legacy query is attempted exactly when the
modern query fails with an OperationalError, a class that contains the
missing-table and missing-column failures but also lock contention and
inability to open the file; a modern failure outside that class propagates
unchanged, and when the fallback runs, extraction returns whatever the
legacy query yields. -/
theorem fallback_on_operational_error :
    (∀ s : Dashp.DocsetStore,
       Dashp.legacyAttempted s = true ↔
         ∃ e, s.modern = Except.error e ∧ Dashp.isOperationalError e = true) ∧
    (∀ (s : Dashp.DocsetStore) (e : Dashp.SqlErr),
       s.modern = Except.error e → Dashp.isOperationalError e = false →
       Dashp.extractRows s = Except.error e) ∧
    (∀ s : Dashp.DocsetStore,
       Dashp.legacyAttempted s = true → Dashp.extractRows s = s.legacy) := by
  refine ⟨fun s => ?_, ?_, ?_⟩
  · rcases s with ⟨m, l⟩
    cases m <;> simp [Dashp.legacyAttempted]
  · rintro ⟨m, l⟩ e he hop
    cases m with
    | ok rows => exact absurd he (by simp)
    | error e2 =>
      have h2 : e2 = e := by simpa using he
      subst h2
      show (if Dashp.isOperationalError e2 = true then l else Except.error e2) = Except.error e2
      simp [hop]
  · rintro ⟨m, l⟩ h
    cases m with
    | ok rows => exact absurd h (by simp [Dashp.legacyAttempted])
    | error e =>
      have he : Dashp.isOperationalError e = true := by
        simpa [Dashp.legacyAttempted] using h
      show (if Dashp.isOperationalError e = true then l else Except.error e) = l
      simp [he]

/-- Witness for the amended claim C3 at a concrete store: a corruption
failure is outside OperationalError and propagates without fallback. -/
theorem fallback_on_operational_error_witness :
    Dashp.extractRows
        { modern := Except.error Dashp.SqlErr.malformedImage, legacy := Except.ok [] } =
      Except.error Dashp.SqlErr.malformedImage :=
  fallback_on_operational_error.2.1
    { modern := Except.error Dashp.SqlErr.malformedImage, legacy := Except.ok [] }
    Dashp.SqlErr.malformedImage rfl rfl

/-! ## Claim C4 -/

/-- Claim C4 counterexample: with one healthy empty docset and a selector run
that fails with return code 2, no path is printed and the process exit status
is 2, not 1. -/
theorem main_exit_selector_failure_code :
    Dashp.mainExit ["A.docset"] Dashp.fsOk (Dashp.FzfOutcome.ran 2 "") = 2 ∧
    Dashp.pathPrinted ["A.docset"] Dashp.fsOk (Dashp.FzfOutcome.ran 2 "") = false := by
  decide

/-- Claim C4 (amended): the exit status is 0 exactly when a path was resolved
and printed; in every other terminating case it is 1, except that when the
run reaches the selector and the selector terminates with a status that is
neither 0 nor 130, the process exits with the selector's own status. -/
theorem main_exit_spec (args : List String) (fs : Dashp.PyPath → Option Dashp.DocsetStore)
    (fzf : Dashp.FzfOutcome) :
    Dashp.mainExit args fs fzf =
      if Dashp.pathPrinted args fs fzf = true then 0
      else (Dashp.selectorFailCode args fs fzf).getD 1 := by
  by_cases hA : args.isEmpty = true
  · simp [Dashp.mainExit, Dashp.pathPrinted, Dashp.pipelineOk, Dashp.selectorFailCode, hA]
  · by_cases hB : (Dashp.filterDocsets args).isEmpty = true
    · simp [Dashp.mainExit, Dashp.pathPrinted, Dashp.pipelineOk, Dashp.selectorFailCode, hA, hB]
    · cases hM : Dashp.mergeDocsets (Dashp.mkDocsets args fs) with
      | error e =>
        simp [Dashp.mainExit, Dashp.pathPrinted, Dashp.pipelineOk, Dashp.selectorFailCode,
          Dashp.exceptIsOk, hA, hB, hM]
      | ok v =>
        cases fzf with
        | notFound =>
          simp [Dashp.mainExit, Dashp.pathPrinted, Dashp.pipelineOk, Dashp.selectorFailCode,
            Dashp.launchFzf, Dashp.exceptIsOk, hA, hB, hM]
        | ran rc out =>
          by_cases h130 : rc = 130
          · simp [Dashp.mainExit, Dashp.pathPrinted, Dashp.pipelineOk, Dashp.selectorFailCode,
              Dashp.launchFzf, Dashp.exceptIsOk, hA, hB, hM, h130]
          · by_cases h0 : rc = 0
            · by_cases hout : Dashp.pyStrip out = ""
              · simp [Dashp.mainExit, Dashp.pathPrinted, Dashp.pipelineOk,
                  Dashp.selectorFailCode, Dashp.launchFzf, Dashp.exceptIsOk,
                  hA, hB, hM, h130, h0, hout]
              · simp [Dashp.mainExit, Dashp.pathPrinted, Dashp.pipelineOk,
                  Dashp.selectorFailCode, Dashp.launchFzf, Dashp.exceptIsOk,
                  hA, hB, hM, h130, h0, hout]
            · simp [Dashp.mainExit, Dashp.pathPrinted, Dashp.pipelineOk,
                Dashp.selectorFailCode, Dashp.launchFzf, Dashp.exceptIsOk,
                hA, hB, hM, h130, h0]

/-! ## Claim C5 -/

/-- Claim C5 (confirmed): for every docset and raw path, the entry path is
the documents-root string, one separator, then the cleaned raw path, by
plain string concatenation; in particular a cleaned path with a leading
separator keeps the documents-root, yielding the double-separator form
of the specification's example. -/
theorem entry_path_concatenation :
    (∀ (p : Dashp.PyPath) (n t raw : String),
       (Dashp.entryOfRow p (n, t, raw)).path =
         Dashp.docRootStr p ++ "/" ++ Dashp.stripDashEntry raw) ∧
    (Dashp.entryOfRow (Dashp.parsePath "/docset") ("n", "k", "/Foo/Bar.html")).path =
      "/docset/Contents/Resources/Documents//Foo/Bar.html" := by
  constructor
  · intro p n t raw
    rfl
  · decide

/-! ## Claim C6 -/

/-- The url column of the legacy query, rephrased by cases on the anchor:
the base path alone when the anchor is NULL or empty, the base path, a hash
sign and the anchor otherwise. -/
theorem legacyUrl_cases (zpath : String) (zanchor : Option String) :
    Dashp.legacyUrl zpath zanchor =
      match zanchor with
      | none => zpath
      | some a => if a = "" then zpath else zpath ++ "#" ++ a := by
  cases zanchor with
  | none => simp [Dashp.legacyUrl, Dashp.sqlNullif]
  | some a =>
    by_cases h : a = ""
    · simp [Dashp.legacyUrl, Dashp.sqlNullif, h]
    · simp [Dashp.legacyUrl, Dashp.sqlNullif, h, String.append_assoc]

/-- When each token's three join lookups each hit exactly one row, the
nested-loop join produces exactly the per-token map. -/
theorem legacyRows_eq_map (metas : List Dashp.ZTokenMetaInfo) (files : List Dashp.ZFilePath)
    (types : List Dashp.ZTokenType) (fm : Dashp.ZToken → Dashp.ZTokenMetaInfo)
    (ff : Dashp.ZToken → Dashp.ZFilePath) (fy : Dashp.ZToken → Dashp.ZTokenType) :
    ∀ tokens : List Dashp.ZToken,
      (∀ t ∈ tokens, metas.filter (fun m => m.z_pk == t.zmetainformation) = [fm t]) →
      (∀ t ∈ tokens, files.filter (fun f => f.z_pk == (fm t).zfile) = [ff t]) →
      (∀ t ∈ tokens, types.filter (fun y => y.z_pk == t.ztokentype) = [fy t]) →
      Dashp.legacyRows tokens metas files types =
        tokens.map (fun t =>
          (t.ztokenname, (fy t).ztypename, Dashp.legacyUrl (ff t).zpath (ff t).zanchor)) := by
  intro tokens
  induction tokens with
  | nil => intro _ _ _; rfl
  | cons t ts ih =>
    intro hm hf hy
    have h1 := hm t (by simp)
    have h2 := hf t (by simp)
    have h3 := hy t (by simp)
    have htail := ih (fun x hx => hm x (by simp [hx])) (fun x hx => hf x (by simp [hx]))
      (fun x hx => hy x (by simp [hx]))
    simp only [Dashp.legacyRows] at htail ⊢
    simp [List.flatMap_cons, h1, h2, h3, htail]

/-- Claim C6 (confirmed): for a legacy-schema docset whose join keys resolve
uniquely, extraction yields exactly one row per token, in token order, and
the row's path is the base path when the anchor is NULL or the empty string,
and the base path followed by a hash sign and the anchor when the anchor is
non-empty. -/
theorem legacy_extraction_rows (s : Dashp.LegacyStore)
    (fm : Dashp.ZToken → Dashp.ZTokenMetaInfo) (ff : Dashp.ZToken → Dashp.ZFilePath)
    (fy : Dashp.ZToken → Dashp.ZTokenType)
    (hm : ∀ t ∈ s.ztoken,
      s.ztokenmetainformation.filter (fun m => m.z_pk == t.zmetainformation) = [fm t])
    (hf : ∀ t ∈ s.ztoken, s.zfilepath.filter (fun f => f.z_pk == (fm t).zfile) = [ff t])
    (hy : ∀ t ∈ s.ztoken, s.ztokentype.filter (fun y => y.z_pk == t.ztokentype) = [fy t]) :
    Dashp.legacyQuery s =
      s.ztoken.map (fun t =>
        (t.ztokenname, (fy t).ztypename,
          match (ff t).zanchor with
          | none => (ff t).zpath
          | some a => if a = "" then (ff t).zpath else (ff t).zpath ++ "#" ++ a)) ∧
    (Dashp.legacyQuery s).length = s.ztoken.length := by
  have h := legacyRows_eq_map s.ztokenmetainformation s.zfilepath s.ztokentype fm ff fy
    s.ztoken hm hf hy
  have hfun : (fun t : Dashp.ZToken =>
      (t.ztokenname, (fy t).ztypename, Dashp.legacyUrl (ff t).zpath (ff t).zanchor)) =
      (fun t : Dashp.ZToken =>
        ((t.ztokenname, (fy t).ztypename,
          match (ff t).zanchor with
          | none => (ff t).zpath
          | some a => if a = "" then (ff t).zpath else (ff t).zpath ++ "#" ++ a) :
          Dashp.Row)) := by
    funext t
    rw [legacyUrl_cases]
  constructor
  · show Dashp.legacyRows s.ztoken s.ztokenmetainformation s.zfilepath s.ztokentype = _
    rw [h, hfun]
  · show (Dashp.legacyRows s.ztoken s.ztokenmetainformation s.zfilepath s.ztokentype).length = _
    rw [h]
    simp

/-- Witness for claim C6 at a concrete three-token legacy store covering the
anchored, NULL-anchor and empty-anchor cases. -/
theorem legacy_extraction_rows_witness :
    Dashp.legacyQuery Dashp.legacyDemo =
      [("bar", "Class", "b.html#anchor1"), ("baz", "Class", "c.html"),
       ("qux", "Class", "d.html")] := by
  have h := legacy_extraction_rows Dashp.legacyDemo Dashp.demoFm Dashp.demoFf Dashp.demoFy
    (by decide) (by decide) (by decide)
  rw [h.1]
  decide

/-! ## Claim C7 -/

/-- Claim C7 (confirmed): whatever rows the unified index already holds are a
prefix of what any successful continuation of the merge returns, so merging
only appends and never removes or overwrites; concretely, merging two
docsets that each contain an entry named map of kind Function yields two
distinct entries, both present, each tagged with its own docset stem. -/
theorem merge_append_only :
    (∀ (ds : List Dashp.Docset) (acc : List Dashp.Entry) (logs : List String)
        (es : List Dashp.Entry) (ls : List String),
       Dashp.mergeGo ds acc logs = Except.ok (es, ls) → ∃ t, es = acc ++ t) ∧
    (Dashp.mergeDocsets [Dashp.docsetA, Dashp.docsetB] =
       Except.ok ([Dashp.entryA, Dashp.entryB], []) ∧
     Dashp.entryA.docset = "A" ∧ Dashp.entryB.docset = "B" ∧
     Dashp.entryA ≠ Dashp.entryB) := by
  constructor
  · intro ds
    induction ds with
    | nil =>
      intro acc logs es ls h
      simp only [Dashp.mergeGo, Except.ok.injEq, Prod.mk.injEq] at h
      exact ⟨[], by simp [h.1]⟩
    | cons d rest ih =>
      intro acc logs es ls h
      obtain ⟨dp, dst⟩ := d
      cases dst with
      | none =>
        simp only [Dashp.mergeGo] at h
        exact ih _ _ _ _ h
      | some s =>
        simp only [Dashp.mergeGo] at h
        cases he : Dashp.extractRows s with
        | error e =>
          rw [he] at h
          exact Except.noConfusion h
        | ok rows =>
          rw [he] at h
          obtain ⟨t2, ht⟩ := ih _ _ _ _ h
          exact ⟨rows.map (Dashp.entryOfRow dp) ++ t2, by simp [ht]⟩
  · decide

/-- Witness for claim C7: applying the append-only part to the concrete
two-docset merge starting from the empty index. -/
theorem merge_append_only_witness :
    ∃ t, [Dashp.entryA, Dashp.entryB] = ([] : List Dashp.Entry) ++ t :=
  merge_append_only.1 [Dashp.docsetA, Dashp.docsetB] [] [] [Dashp.entryA, Dashp.entryB] []
    (by decide)

/-! ## Claim C8 -/

/-- The warnings logged so far never influence which index rows a merge
continuation produces. -/
theorem entriesOf_mergeGo_logs :
    ∀ (ds : List Dashp.Docset) (acc : List Dashp.Entry) (l1 l2 : List String),
      Dashp.entriesOf (Dashp.mergeGo ds acc l1) = Dashp.entriesOf (Dashp.mergeGo ds acc l2)
  | [], _, _, _ => rfl
  | d :: rest, acc, l1, l2 => by
    obtain ⟨dp, dst⟩ := d
    cases dst with
    | none =>
      simp only [Dashp.mergeGo]
      exact entriesOf_mergeGo_logs rest acc _ _
    | some s =>
      simp only [Dashp.mergeGo]
      cases Dashp.extractRows s with
      | error e => rfl
      | ok rows => exact entriesOf_mergeGo_logs rest _ l1 l2

/-- Claim C8 (confirmed): a docset whose store file is absent is skipped:
the loop step appends exactly the warning diagnostic to the log, raises
nothing, continues with the remaining docsets, and the index rows of the
whole merge are the same as if the docset had not been listed. -/
theorem missing_store_skipped :
    (∀ (d : Dashp.Docset) (rest : List Dashp.Docset) (acc : List Dashp.Entry)
        (logs : List String),
       d.store = none →
       Dashp.mergeGo (d :: rest) acc logs =
         Dashp.mergeGo rest acc (logs ++ [Dashp.missingDbWarning d])) ∧
    (∀ (d : Dashp.Docset) (rest : List Dashp.Docset), d.store = none →
       Dashp.entriesOf (Dashp.mergeDocsets (d :: rest)) =
         Dashp.entriesOf (Dashp.mergeDocsets rest)) := by
  constructor
  · intro d rest acc logs hd
    obtain ⟨dp, dst⟩ := d
    cases dst with
    | none => simp only [Dashp.mergeGo]
    | some s => exact absurd hd (by simp)
  · intro d rest hd
    obtain ⟨dp, dst⟩ := d
    cases dst with
    | none =>
      show Dashp.entriesOf (Dashp.mergeGo _ [] []) = _
      simp only [Dashp.mergeGo]
      exact entriesOf_mergeGo_logs rest [] _ _
    | some s => exact absurd hd (by simp)

/-- Witness for claim C8: one concrete docset with an absent store, merged
in front of an empty remainder. -/
theorem missing_store_skipped_witness :
    Dashp.mergeGo [{ path := Dashp.parsePath "Missing.docset", store := none }] [] [] =
      Dashp.mergeGo [] []
        ([] ++ [Dashp.missingDbWarning { path := Dashp.parsePath "Missing.docset", store := none }]) :=
  missing_store_skipped.1 { path := Dashp.parsePath "Missing.docset", store := none } [] [] [] rfl

/-! ## Claim C9 -/

/-- Claim C9 counterexample: an argument with one trailing separator after
the suffix does not end in the docset suffix, yet the filter keeps it, so
not every argument that fails to end in the suffix is excluded. -/
theorem filter_keeps_trailing_slash_arg :
    Dashp.pyEndsWith "Foo.docset/" ".docset" = false ∧
    Dashp.filterDocsets ["Foo.docset/"] = ["Foo.docset/"] := by
  decide

/-- Claim C9 (amended): an argument is kept exactly when it ends in the
docset suffix after removing at most one trailing separator, all others
being silently excluded; and when the filtered list is empty the run exits
with status 1 whatever the filesystem and selector behave like, so before
any docset store is consulted. -/
theorem docset_filter_spec :
    (∀ (args : List String) (a : String),
       a ∈ Dashp.filterDocsets args ↔
         a ∈ args ∧ Dashp.pyEndsWith (Dashp.pyRemoveSuffix a "/") ".docset" = true) ∧
    (∀ (args : List String) (fs fs2 : Dashp.PyPath → Option Dashp.DocsetStore)
        (fzf fzf2 : Dashp.FzfOutcome),
       Dashp.filterDocsets args = [] →
       Dashp.mainExit args fs fzf = 1 ∧
       Dashp.mainExit args fs fzf = Dashp.mainExit args fs2 fzf2) := by
  constructor
  · intro args a
    simp [Dashp.filterDocsets, List.mem_filter]
  · intro args fs fs2 fzf fzf2 h
    have h2 : (Dashp.filterDocsets args).isEmpty = true := by simp [h]
    constructor
    · simp [Dashp.mainExit, h2]
    · simp [Dashp.mainExit, h2]

/-- Witness for the amended claim C9 at a concrete argument list that the
filter empties, under two different filesystems and selector outcomes. -/
theorem docset_filter_spec_witness :
    Dashp.mainExit ["nodocset"] (fun _ => none) Dashp.FzfOutcome.notFound = 1 ∧
    Dashp.mainExit ["nodocset"] (fun _ => none) Dashp.FzfOutcome.notFound =
      Dashp.mainExit ["nodocset"]
        (fun _ => some { modern := Except.ok [], legacy := Except.ok [] })
        (Dashp.FzfOutcome.ran 0 "x") :=
  docset_filter_spec.2 ["nodocset"] _ _ _ _ (by decide)

/-! ## Claim C10 -/

/-- Claim C10 (confirmed): an argument with exactly one trailing separator
after the docset suffix survives the filter, parses to the same path value
as without the separator, is tagged with the stem as docset id, and its
merged entry is identical to the one the bare form yields; arguments with
two or three trailing separators are excluded. -/
theorem trailing_slash_docset_arg :
    Dashp.filterDocsets ["Foo.docset/"] = ["Foo.docset/"] ∧
    Dashp.filterDocsets ["Foo.docset//"] = [] ∧
    Dashp.filterDocsets ["Foo.docset///"] = [] ∧
    Dashp.parsePath "Foo.docset/" = Dashp.parsePath "Foo.docset" ∧
    Dashp.pyStem (Dashp.parsePath "Foo.docset/") = "Foo" ∧
    Dashp.mergeDocsets
        [{ path := Dashp.parsePath "Foo.docset/",
           store := some { modern := Except.ok [("n", "k", "p.html")],
                           legacy := Except.ok [] } }] =
      Except.ok ([{ name := "n", type := "k", docset := "Foo",
                    path := "Foo.docset/Contents/Resources/Documents/p.html" }], []) := by
  decide
